import Mathlib

/-!
Shallow embedding of the `file-owner` crate (`src/lib.rs`): reading and
changing the Unix owner (UID) and group (GID) of a filesystem path.  The
external OS services the crate consumes (the user/group directory, the
filesystem metadata subsystem, and the `chown` primitive) are modelled as
explicit parameters: a `Directory` of lookup functions and an `Fs` state.
Call counts are threaded where the source performs an OS call, so that
claims about "no call is made" or "a single metadata read" are statable.
-/

namespace FileOwner

/-- Payload of an underlying `std::io::Error`, abstracted to a code. -/
structure IoError where
  code : Nat
deriving DecidableEq

/-- Payload of an underlying `nix::Error` (an OS call failure), abstracted to a code. -/
structure NixError where
  code : Nat
deriving DecidableEq

/-- `FileOwnerError` from `src/lib.rs`: the four-variant error taxonomy. -/
inductive FileOwnerError where
  | IoError (e : IoError)
  | NixError (e : NixError)
  | UserNotFound (name : String)
  | GroupNotFound (name : String)
deriving DecidableEq

/-- An attached error cause, as exposed by `Error::source`. -/
inductive ErrCause where
  | ofIo (e : IoError)
  | ofNix (e : NixError)
deriving DecidableEq

/-- `impl Error for FileOwnerError`: the `source` method, which returns the
wrapped underlying error for `IoError` and `NixError`, and `None` for the
two not-found variants. -/
def FileOwnerError.source : FileOwnerError → Option ErrCause
  | .IoError e => some (.ofIo e)
  | .NixError e => some (.ofNix e)
  | .UserNotFound _ => none
  | .GroupNotFound _ => none

/-- An OS user directory entry (`nix::unistd::User`), restricted to the
fields the crate reads. -/
structure User where
  uid : Nat
  name : String
deriving DecidableEq

/-- An OS group directory entry (`nix::unistd::Group`), restricted to the
fields the crate reads. -/
structure NixGroup where
  gid : Nat
  name : String
deriving DecidableEq

/-- The OS user/group directory service (getpwnam/getpwuid/getgrnam/getgrgid
as surfaced by `nix::unistd`), consumed by the crate as a black box.  Each
lookup can fail with a `NixError`, and a successful lookup can find no entry. -/
structure Directory where
  userFromName : String → Except NixError (Option User)
  userFromUid : Nat → Except NixError (Option User)
  groupFromName : String → Except NixError (Option NixGroup)
  groupFromGid : Nat → Except NixError (Option NixGroup)

/-- `pub struct Owner(Uid)`: a wrapper around a numeric UID. -/
structure Owner where
  uid : Nat
deriving DecidableEq

/-- `Owner::from_uid`: wraps the raw value, infallibly (`uid.try_into().unwrap()`
is the identity on u32). -/
def Owner.from_uid (uid : Nat) : Owner := ⟨uid⟩

/-- `Owner::from_name`: forward directory lookup; `UserNotFound` when the name
has no entry, the underlying lookup error when the lookup call itself fails. -/
def Owner.from_name (d : Directory) (user : String) : Except FileOwnerError Owner :=
  match d.userFromName user with
  | .error e => .error (.NixError e)
  | .ok none => .error (.UserNotFound user)
  | .ok (some u) => .ok ⟨u.uid⟩

/-- `Owner::id`: the raw UID (`as_raw().try_into().unwrap()` is the identity). -/
def Owner.id (o : Owner) : Nat := o.uid

/-- `Owner::name`: reverse directory lookup by UID; `Ok(None)` when the UID has
no entry, an error only when the lookup call itself fails. -/
def Owner.name (d : Directory) (o : Owner) : Except FileOwnerError (Option String) :=
  match d.userFromUid o.uid with
  | .error e => .error (.NixError e)
  | .ok u => .ok (u.map User.name)

/-- `impl Display for Owner`: `self.name().ok().flatten()` and fall back to the
decimal UID. -/
def Owner.display (d : Directory) (o : Owner) : String :=
  match (Owner.name d o).toOption.join with
  | some nm => nm
  | none => toString (Owner.id o)

/-- `pub struct Group(Gid)`: a wrapper around a numeric GID. -/
structure Group where
  gid : Nat
deriving DecidableEq

/-- `Group::from_gid`: wraps the raw value, infallibly. -/
def Group.from_gid (gid : Nat) : Group := ⟨gid⟩

/-- `Group::from_name`: forward directory lookup; `GroupNotFound` when the name
has no entry, the underlying lookup error when the lookup call itself fails. -/
def Group.from_name (d : Directory) (group : String) : Except FileOwnerError Group :=
  match d.groupFromName group with
  | .error e => .error (.NixError e)
  | .ok none => .error (.GroupNotFound group)
  | .ok (some g) => .ok ⟨g.gid⟩

/-- `Group::id`: the raw GID. -/
def Group.id (g : Group) : Nat := g.gid

/-- `Group::name`: reverse directory lookup by GID. -/
def Group.name (d : Directory) (g : Group) : Except FileOwnerError (Option String) :=
  match d.groupFromGid g.gid with
  | .error e => .error (.NixError e)
  | .ok r => .ok (r.map NixGroup.name)

/-- `impl Display for Group`: name on a successful reverse lookup, else the
decimal GID. -/
def Group.display (d : Directory) (g : Group) : String :=
  match (Group.name d g).toOption.join with
  | some nm => nm
  | none => toString (Group.id g)

/-- A value usable as `impl TryInto<Owner, Error: Into<FileOwnerError>>`.  The
instances the crate provides are a raw u32 (via `From<u32>`, infallible) and a
name string (via `TryFrom<&str>`, which is `Owner::from_name`). -/
inductive OwnerInput where
  | byId (uid : Nat)
  | byName (name : String)
deriving DecidableEq

/-- The `owner.try_into().map_err(Into::into)` step of the mutators. -/
def OwnerInput.tryIntoOwner (d : Directory) : OwnerInput → Except FileOwnerError Owner
  | .byId uid => .ok (Owner.from_uid uid)
  | .byName n => Owner.from_name d n

/-- A value usable as `impl TryInto<Group, Error: Into<FileOwnerError>>`. -/
inductive GroupInput where
  | byId (gid : Nat)
  | byName (name : String)
deriving DecidableEq

/-- The `group.try_into().map_err(Into::into)` step of the mutators. -/
def GroupInput.tryIntoGroup (d : Directory) : GroupInput → Except FileOwnerError Group
  | .byId gid => .ok (Group.from_gid gid)
  | .byName n => Group.from_name d n

/-- Ownership metadata of a file, as read by `fs::metadata` (`uid()`/`gid()`). -/
structure Meta where
  uid : Nat
  gid : Nat
deriving DecidableEq

/-- Filesystem state as the crate observes it: `files` is the stat view
(`fs::metadata`), which either yields ownership metadata or an I/O error;
`chownFail` tells whether the `chown` syscall on a path fails (permission,
missing path, ...) and with which OS error. -/
structure Fs where
  files : String → Except IoError Meta
  chownFail : String → Option NixError

/-- One `fs::metadata(path)` call: the result plus a stat-call count of 1. -/
def Fs.metadata (fs : Fs) (path : String) : Except IoError Meta × Nat :=
  (fs.files path, 1)

/-- The effect of a successful `chown` on the stat view: at `path`, the owner
UID and/or group GID are replaced when requested and kept otherwise; every
other path is untouched. -/
def Fs.setMeta (fs : Fs) (path : String) (uid gid : Option Nat) : Fs :=
  { fs with
    files := fun p =>
      if p = path then
        (fs.files p).map (fun m => ⟨uid.getD m.uid, gid.getD m.gid⟩)
      else fs.files p }

/-- One `nix::unistd::chown(path, uid, gid)` call: fails with the OS error when
the syscall fails (state unchanged), otherwise updates the path's ownership in
one atomic step.  The second component counts the call. -/
def chown (fs : Fs) (path : String) (uid gid : Option Nat) : Except NixError Fs × Nat :=
  (match fs.chownFail path with
   | some e => .error e
   | none => .ok (fs.setMeta path uid gid), 1)

/-- `pub fn set_owner`: resolve the owner input, then `chown(path, Some(uid), None)`.
Returns the call result, the final filesystem state, and how many `chown` calls
were made. -/
def set_owner (d : Directory) (fs : Fs) (path : String) (owner : OwnerInput) :
    Except FileOwnerError Unit × Fs × Nat :=
  match OwnerInput.tryIntoOwner d owner with
  | .error e => (.error e, fs, 0)
  | .ok o =>
    match chown fs path (some (Owner.id o)) none with
    | (.error e, n) => (.error (.NixError e), fs, n)
    | (.ok fs2, n) => (.ok (), fs2, n)

/-- `pub fn set_group`: resolve the group input, then `chown(path, None, Some(gid))`. -/
def set_group (d : Directory) (fs : Fs) (path : String) (group : GroupInput) :
    Except FileOwnerError Unit × Fs × Nat :=
  match GroupInput.tryIntoGroup d group with
  | .error e => (.error e, fs, 0)
  | .ok g =>
    match chown fs path none (some (Group.id g)) with
    | (.error e, n) => (.error (.NixError e), fs, n)
    | (.ok fs2, n) => (.ok (), fs2, n)

/-- `pub fn set_owner_group`: resolve the owner input, then the group input,
then a single `chown(path, Some(uid), Some(gid))`. -/
def set_owner_group (d : Directory) (fs : Fs) (path : String)
    (owner : OwnerInput) (group : GroupInput) :
    Except FileOwnerError Unit × Fs × Nat :=
  match OwnerInput.tryIntoOwner d owner with
  | .error e => (.error e, fs, 0)
  | .ok o =>
    match GroupInput.tryIntoGroup d group with
    | .error e => (.error e, fs, 0)
    | .ok g =>
      match chown fs path (some (Owner.id o)) (some (Group.id g)) with
      | (.error e, n) => (.error (.NixError e), fs, n)
      | (.ok fs2, n) => (.ok (), fs2, n)

/-- `pub fn owner`: one `fs::metadata` read, wrapping the UID; a stat failure
surfaces as `IoError`.  The second component counts the stat calls. -/
def owner (fs : Fs) (path : String) : Except FileOwnerError Owner × Nat :=
  match fs.metadata path with
  | (.error e, n) => (.error (.IoError e), n)
  | (.ok m, n) => (.ok (Owner.from_uid m.uid), n)

/-- `pub fn group`: one `fs::metadata` read, wrapping the GID. -/
def group (fs : Fs) (path : String) : Except FileOwnerError Group × Nat :=
  match fs.metadata path with
  | (.error e, n) => (.error (.IoError e), n)
  | (.ok m, n) => (.ok (Group.from_gid m.gid), n)

/-- `pub fn owner_group`: a single `fs::metadata` read producing both the
`Owner` and the `Group`. -/
def owner_group (fs : Fs) (path : String) : Except FileOwnerError (Owner × Group) × Nat :=
  match fs.metadata path with
  | (.error e, n) => (.error (.IoError e), n)
  | (.ok m, n) => (.ok (Owner.from_uid m.uid, Group.from_gid m.gid), n)

/-- `impl<T: AsRef<Path>> PathExt for T`, method `set_owner`: delegation to the
free function; `asRef` models the `AsRef<Path>` conversion of the receiver. -/
def PathExt.set_owner {α : Type} (asRef : α → String) (d : Directory) (fs : Fs)
    (self : α) (owner : OwnerInput) : Except FileOwnerError Unit × Fs × Nat :=
  FileOwner.set_owner d fs (asRef self) owner

/-- `PathExt::set_group`: delegation to the free function. -/
def PathExt.set_group {α : Type} (asRef : α → String) (d : Directory) (fs : Fs)
    (self : α) (group : GroupInput) : Except FileOwnerError Unit × Fs × Nat :=
  FileOwner.set_group d fs (asRef self) group

/-- `PathExt::set_owner_group`: delegation to the free function. -/
def PathExt.set_owner_group {α : Type} (asRef : α → String) (d : Directory) (fs : Fs)
    (self : α) (owner : OwnerInput) (group : GroupInput) :
    Except FileOwnerError Unit × Fs × Nat :=
  FileOwner.set_owner_group d fs (asRef self) owner group

/-- `PathExt::owner`: delegation to the free function. -/
def PathExt.owner {α : Type} (asRef : α → String) (fs : Fs) (self : α) :
    Except FileOwnerError Owner × Nat :=
  FileOwner.owner fs (asRef self)

/-- `PathExt::group`: delegation to the free function. -/
def PathExt.group {α : Type} (asRef : α → String) (fs : Fs) (self : α) :
    Except FileOwnerError Group × Nat :=
  FileOwner.group fs (asRef self)

/-- `PathExt::owner_group`: delegation to the free function. -/
def PathExt.owner_group {α : Type} (asRef : α → String) (fs : Fs) (self : α) :
    Except FileOwnerError (Owner × Group) × Nat :=
  FileOwner.owner_group fs (asRef self)

/-- A concrete directory for witnesses: "nobody"/"nogroup" at ID 65534, no
other entries, lookups never fail. -/
def dirEx : Directory where
  userFromName := fun n => if n = "nobody" then .ok (some ⟨65534, "nobody"⟩) else .ok none
  userFromUid := fun u => if u = 65534 then .ok (some ⟨65534, "nobody"⟩) else .ok none
  groupFromName := fun n => if n = "nogroup" then .ok (some ⟨65534, "nogroup"⟩) else .ok none
  groupFromGid := fun g => if g = 65534 then .ok (some ⟨65534, "nogroup"⟩) else .ok none

/-- A concrete directory whose lookup calls themselves fail. -/
def dirErr : Directory where
  userFromName := fun _ => .error ⟨5⟩
  userFromUid := fun _ => .error ⟨5⟩
  groupFromName := fun _ => .error ⟨5⟩
  groupFromGid := fun _ => .error ⟨5⟩

/-- A concrete filesystem for witnesses: one file "/tmp/baz" owned by 1000:1000,
stat fails elsewhere, `chown` always succeeds. -/
def fsEx : Fs where
  files := fun p => if p = "/tmp/baz" then .ok ⟨1000, 1000⟩ else .error ⟨2⟩
  chownFail := fun _ => none

/-- C4: `Owner::from_uid` and `Group::from_gid` are infallible (their type is a
plain function, no error, no directory access) and round-trip with `id`: for
every 32-bit unsigned integer `n`, `from_uid(n).id() = n` and
`from_gid(n).id() = n`. -/
theorem from_id_roundtrip (n : Nat) (_h : n < 2 ^ 32) :
    Owner.id (Owner.from_uid n) = n ∧ Group.id (Group.from_gid n) = n :=
  ⟨rfl, rfl⟩

/-- C4 witness: the round-trip at the concrete 32-bit value 99. -/
theorem from_id_roundtrip_witness :
    Owner.id (Owner.from_uid 99) = 99 ∧ Group.id (Group.from_gid 99) = 99 :=
  from_id_roundtrip 99 (by decide)

/-- C10: every `PathExt` method returns exactly the same result (and final
filesystem state) as the corresponding free function applied to the converted
receiver, for any receiver type `α` with an `AsRef<Path>` conversion. -/
theorem path_ext_delegates {α : Type} (asRef : α → String) (d : Directory) (fs : Fs)
    (self : α) (ow : OwnerInput) (g : GroupInput) :
    PathExt.set_owner asRef d fs self ow = set_owner d fs (asRef self) ow ∧
    PathExt.set_group asRef d fs self g = set_group d fs (asRef self) g ∧
    PathExt.set_owner_group asRef d fs self ow g = set_owner_group d fs (asRef self) ow g ∧
    PathExt.owner asRef fs self = owner fs (asRef self) ∧
    PathExt.group asRef fs self = group fs (asRef self) ∧
    PathExt.owner_group asRef fs self = owner_group fs (asRef self) :=
  ⟨rfl, rfl, rfl, rfl, rfl, rfl⟩

/-- C3: `Owner::from_name` fails with `UserNotFound` carrying exactly the input
name when the directory has no entry for it, and with the underlying OS lookup
error when the lookup call itself errors; `Group::from_name` is symmetric with
`GroupNotFound`. -/
theorem from_name_failure (d : Directory) (n : String) :
    (d.userFromName n = .ok none →
      Owner.from_name d n = .error (.UserNotFound n)) ∧
    (∀ e, d.userFromName n = .error e →
      Owner.from_name d n = .error (.NixError e)) ∧
    (d.groupFromName n = .ok none →
      Group.from_name d n = .error (.GroupNotFound n)) ∧
    (∀ e, d.groupFromName n = .error e →
      Group.from_name d n = .error (.NixError e)) := by
  refine ⟨fun h => ?_, fun e h => ?_, fun h => ?_, fun e h => ?_⟩ <;>
    simp [Owner.from_name, Group.from_name, h]

/-- C3 witness: the absent name "ghost" in the concrete directory yields
`UserNotFound "ghost"` / `GroupNotFound "ghost"`, and a failing directory
yields the underlying lookup error. -/
theorem from_name_failure_witness :
    Owner.from_name dirEx "ghost" = .error (.UserNotFound "ghost") ∧
    Group.from_name dirEx "ghost" = .error (.GroupNotFound "ghost") ∧
    Owner.from_name dirErr "ghost" = .error (.NixError (NixError.mk 5)) :=
  ⟨(from_name_failure dirEx "ghost").1 rfl,
   (from_name_failure dirEx "ghost").2.2.1 rfl,
   (from_name_failure dirErr "ghost").2.1 (NixError.mk 5) rfl⟩

/-- C6: `Owner::name` and `Group::name` return `Ok(None)` — not an error — when
the reverse lookup finds no entry for the ID, return the entry's name when it
finds one, and fail exactly when the reverse-lookup call itself fails (with
that error wrapped). -/
theorem name_reverse_lookup (d : Directory) (o : Owner) (g : Group) :
    (d.userFromUid (Owner.id o) = .ok none → Owner.name d o = .ok none) ∧
    (∀ u, d.userFromUid (Owner.id o) = .ok (some u) →
      Owner.name d o = .ok (some u.name)) ∧
    (∀ e, Owner.name d o = .error e ↔
      ∃ ne, e = .NixError ne ∧ d.userFromUid (Owner.id o) = .error ne) ∧
    (d.groupFromGid (Group.id g) = .ok none → Group.name d g = .ok none) ∧
    (∀ gr, d.groupFromGid (Group.id g) = .ok (some gr) →
      Group.name d g = .ok (some gr.name)) ∧
    (∀ e, Group.name d g = .error e ↔
      ∃ ne, e = .NixError ne ∧ d.groupFromGid (Group.id g) = .error ne) := by
  refine ⟨fun h => ?_, fun u h => ?_, fun e => ?_, fun h => ?_, fun gr h => ?_, fun e => ?_⟩
  · simp only [Owner.name, Owner.id] at h ⊢; rw [h]; rfl
  · simp only [Owner.name, Owner.id] at h ⊢; rw [h]; rfl
  · unfold Owner.name Owner.id
    cases hx : d.userFromUid o.uid with
    | error ne => simp [hx, eq_comm]
    | ok r => simp [hx]
  · simp only [Group.name, Group.id] at h ⊢; rw [h]; rfl
  · simp only [Group.name, Group.id] at h ⊢; rw [h]; rfl
  · unfold Group.name Group.id
    cases hx : d.groupFromGid g.gid with
    | error ne => simp [hx, eq_comm]
    | ok r => simp [hx]

/-- C6 witness: an unassigned ID gives `Ok(None)`, an assigned one gives the
name, in the concrete directory. -/
theorem name_reverse_lookup_witness :
    Owner.name dirEx (Owner.from_uid 321321) = .ok none ∧
    Owner.name dirEx (Owner.from_uid 65534) = .ok (some "nobody") :=
  ⟨(name_reverse_lookup dirEx (Owner.from_uid 321321) (Group.from_gid 0)).1 rfl,
   (name_reverse_lookup dirEx (Owner.from_uid 65534) (Group.from_gid 0)).2.1
     ⟨65534, "nobody"⟩ rfl⟩

/-- C5: `Display` for `Owner` and `Group` renders the name when the reverse
lookup succeeds and returns one; when the lookup finds no name, or when the
lookup itself errors (the error is swallowed by `.ok()`), it renders the
decimal ID; `display` is a total function, so formatting never errors. -/
theorem display_policy (d : Directory) (o : Owner) (g : Group) :
    (∀ nm, Owner.name d o = .ok (some nm) → Owner.display d o = nm) ∧
    (Owner.name d o = .ok none → Owner.display d o = toString (Owner.id o)) ∧
    (∀ e, Owner.name d o = .error e → Owner.display d o = toString (Owner.id o)) ∧
    (∀ nm, Group.name d g = .ok (some nm) → Group.display d g = nm) ∧
    (Group.name d g = .ok none → Group.display d g = toString (Group.id g)) ∧
    (∀ e, Group.name d g = .error e → Group.display d g = toString (Group.id g)) := by
  refine ⟨fun nm h => ?_, fun h => ?_, fun e h => ?_,
          fun nm h => ?_, fun h => ?_, fun e h => ?_⟩ <;>
    simp [Owner.display, Group.display, h, Except.toOption, Option.join]

/-- C5 witness: the concrete directory renders ID 65534 as "nobody", an
unassigned ID as its decimal text, and with a failing directory the error is
swallowed and the decimal text is rendered. -/
theorem display_policy_witness :
    Owner.display dirEx (Owner.from_uid 65534) = "nobody" ∧
    Owner.display dirEx (Owner.from_uid 321321) = "321321" ∧
    Group.display dirErr (Group.from_gid 65534) = "65534" :=
  ⟨(display_policy dirEx (Owner.from_uid 65534) (Group.from_gid 0)).1 "nobody" rfl,
   (display_policy dirEx (Owner.from_uid 321321) (Group.from_gid 0)).2.1 rfl,
   (display_policy dirErr (Owner.from_uid 0) (Group.from_gid 65534)).2.2.2.2.2
     (FileOwnerError.NixError (NixError.mk 5)) rfl⟩

/-- A concrete filesystem for witnesses whose stat and `chown` calls both fail. -/
def fsErr : Fs where
  files := fun _ => .error ⟨13⟩
  chownFail := fun _ => some ⟨1⟩

/-- Helper: a successful `chown` that sets no group keeps every file's GID. -/
theorem setMeta_keepsGid (fs : Fs) (path p : String) (u : Option Nat) :
    ((fs.setMeta path u none).files p).map Meta.gid = (fs.files p).map Meta.gid := by
  unfold Fs.setMeta
  by_cases hp : p = path
  · simp only [hp, if_pos rfl]
    cases fs.files path <;> simp [Except.map]
  · simp [hp]

/-- Helper: a successful `chown` that sets no owner keeps every file's UID. -/
theorem setMeta_keepsUid (fs : Fs) (path p : String) (g : Option Nat) :
    ((fs.setMeta path none g).files p).map Meta.uid = (fs.files p).map Meta.uid := by
  unfold Fs.setMeta
  by_cases hp : p = path
  · simp only [hp, if_pos rfl]
    cases fs.files path <;> simp [Except.map]
  · simp [hp]

/-- Helper: `setMeta` leaves every other path entirely untouched. -/
theorem setMeta_other (fs : Fs) (path p : String) (u g : Option Nat) (hp : p ≠ path) :
    ((fs.setMeta path u g).files p) = fs.files p := by
  unfold Fs.setMeta
  simp [hp]

/-- C1: each mutator resolves its name/id input before the `chown` call; when
resolution of the owner or the group fails, the resolver error is returned
unchanged, the `chown` call count is 0 and the filesystem state is returned
unchanged; when both inputs of `set_owner_group` resolve and the syscall
succeeds, both identities are applied in one single `chown` call. -/
theorem set_resolution_before_chown (d : Directory) (fs : Fs) (path : String) :
    (∀ ow e, OwnerInput.tryIntoOwner d ow = .error e →
      set_owner d fs path ow = (.error e, fs, 0)) ∧
    (∀ g e, GroupInput.tryIntoGroup d g = .error e →
      set_group d fs path g = (.error e, fs, 0)) ∧
    (∀ ow g e, OwnerInput.tryIntoOwner d ow = .error e →
      set_owner_group d fs path ow g = (.error e, fs, 0)) ∧
    (∀ ow g o e, OwnerInput.tryIntoOwner d ow = .ok o →
      GroupInput.tryIntoGroup d g = .error e →
      set_owner_group d fs path ow g = (.error e, fs, 0)) ∧
    (∀ ow g o gr, OwnerInput.tryIntoOwner d ow = .ok o →
      GroupInput.tryIntoGroup d g = .ok gr →
      fs.chownFail path = none →
      set_owner_group d fs path ow g =
        (.ok (), fs.setMeta path (some (Owner.id o)) (some (Group.id gr)), 1)) := by
  refine ⟨fun ow e h => ?_, fun g e h => ?_, fun ow g e h => ?_,
          fun ow g o e h1 h2 => ?_, fun ow g o gr h1 h2 h3 => ?_⟩
  · unfold set_owner; rw [h]
  · unfold set_group; rw [h]
  · unfold set_owner_group; rw [h]
  · unfold set_owner_group; rw [h1, h2]
  · unfold set_owner_group chown; rw [h1, h2, h3]

/-- C1 witness: an unresolvable owner name short-circuits `set_owner` with the
resolver error, zero `chown` calls and an unchanged filesystem; a fully
resolvable `set_owner_group` applies both identities in one `chown` call. -/
theorem set_resolution_before_chown_witness :
    set_owner dirEx fsEx "/tmp/baz" (.byName "ghost") =
      (.error (.UserNotFound "ghost"), fsEx, 0) ∧
    set_owner_group dirEx fsEx "/tmp/baz" (.byName "nobody") (.byName "nogroup") =
      (.ok (), fsEx.setMeta "/tmp/baz" (some 65534) (some 65534), 1) :=
  ⟨(set_resolution_before_chown dirEx fsEx "/tmp/baz").1 (.byName "ghost")
     (.UserNotFound "ghost") rfl,
   (set_resolution_before_chown dirEx fsEx "/tmp/baz").2.2.2.2 (.byName "nobody")
     (.byName "nogroup") (Owner.mk 65534) (Group.mk 65534) rfl rfl rfl⟩

/-- C2: a successful `set_owner` leaves every file's group GID unchanged, a
successful `set_group` leaves every file's owner UID unchanged, and both leave
every path other than the target entirely untouched. -/
theorem mutators_frame (d : Directory) (fs : Fs) (path p : String)
    (ow : OwnerInput) (g : GroupInput) :
    ((set_owner d fs path ow).1 = .ok () →
      ((set_owner d fs path ow).2.1.files p).map Meta.gid = (fs.files p).map Meta.gid) ∧
    ((set_group d fs path g).1 = .ok () →
      ((set_group d fs path g).2.1.files p).map Meta.uid = (fs.files p).map Meta.uid) ∧
    (p ≠ path →
      (set_owner d fs path ow).2.1.files p = fs.files p ∧
      (set_group d fs path g).2.1.files p = fs.files p) := by
  refine ⟨?_, ?_, ?_⟩
  · cases hr : OwnerInput.tryIntoOwner d ow with
    | error e => simp [set_owner, hr]
    | ok o =>
      cases hc : fs.chownFail path with
      | some e => simp [set_owner, chown, hr, hc]
      | none =>
        intro _
        simp only [set_owner, chown, hr, hc]
        exact setMeta_keepsGid fs path p _
  · cases hr : GroupInput.tryIntoGroup d g with
    | error e => simp [set_group, hr]
    | ok gr =>
      cases hc : fs.chownFail path with
      | some e => simp [set_group, chown, hr, hc]
      | none =>
        intro _
        simp only [set_group, chown, hr, hc]
        exact setMeta_keepsUid fs path p _
  · intro hp
    constructor
    · cases hr : OwnerInput.tryIntoOwner d ow with
      | error e => simp [set_owner, hr]
      | ok o =>
        cases hc : fs.chownFail path with
        | some e => simp [set_owner, chown, hr, hc]
        | none =>
          simp only [set_owner, chown, hr, hc]
          exact setMeta_other fs path p _ _ hp
    · cases hr : GroupInput.tryIntoGroup d g with
      | error e => simp [set_group, hr]
      | ok gr =>
        cases hc : fs.chownFail path with
        | some e => simp [set_group, chown, hr, hc]
        | none =>
          simp only [set_group, chown, hr, hc]
          exact setMeta_other fs path p _ _ hp

/-- C2 witness: on the concrete filesystem, setting the owner of "/tmp/baz"
to 65534 keeps its GID readable as before. -/
theorem mutators_frame_witness :
    ((set_owner dirEx fsEx "/tmp/baz" (.byId 65534)).2.1.files "/tmp/baz").map Meta.gid =
      (fsEx.files "/tmp/baz").map Meta.gid :=
  (mutators_frame dirEx fsEx "/tmp/baz" "/tmp/baz" (.byId 65534) (.byId 65534)).1 rfl

/-- C7: the error taxonomy has exactly the four kinds `IoError`, `NixError`
(the OS-call-failure kind the spec calls `OsError`), `UserNotFound` and
`GroupNotFound`; a stat failure in the readers surfaces as `IoError`, a
failure of the `chown` syscall in the mutators surfaces as the OS-error kind,
and both wrapping kinds keep the original cause attached as the error source. -/
theorem error_taxonomy (d : Directory) (fs : Fs) (path : String) :
    (∀ fe : FileOwnerError,
      (∃ e, fe = .IoError e) ∨ (∃ e, fe = .NixError e) ∨
      (∃ nm, fe = .UserNotFound nm) ∨ (∃ nm, fe = .GroupNotFound nm)) ∧
    (∀ e, fs.files path = .error e →
      (owner fs path).1 = .error (.IoError e) ∧
      (group fs path).1 = .error (.IoError e) ∧
      (owner_group fs path).1 = .error (.IoError e) ∧
      FileOwnerError.source (.IoError e) = some (.ofIo e)) ∧
    (∀ e, fs.chownFail path = some e →
      (∀ ow o, OwnerInput.tryIntoOwner d ow = .ok o →
        (set_owner d fs path ow).1 = .error (.NixError e)) ∧
      (∀ g gr, GroupInput.tryIntoGroup d g = .ok gr →
        (set_group d fs path g).1 = .error (.NixError e)) ∧
      (∀ ow g o gr, OwnerInput.tryIntoOwner d ow = .ok o →
        GroupInput.tryIntoGroup d g = .ok gr →
        (set_owner_group d fs path ow g).1 = .error (.NixError e)) ∧
      FileOwnerError.source (.NixError e) = some (.ofNix e)) := by
  refine ⟨fun fe => ?_, fun e h => ?_, fun e h => ?_⟩
  · cases fe with
    | IoError e => exact .inl ⟨e, rfl⟩
    | NixError e => exact .inr (.inl ⟨e, rfl⟩)
    | UserNotFound nm => exact .inr (.inr (.inl ⟨nm, rfl⟩))
    | GroupNotFound nm => exact .inr (.inr (.inr ⟨nm, rfl⟩))
  · refine ⟨?_, ?_, ?_, rfl⟩ <;> simp [owner, group, owner_group, Fs.metadata, h]
  · refine ⟨fun ow o hr => ?_, fun g gr hr => ?_, fun ow g o gr hr1 hr2 => ?_, rfl⟩
    · simp [set_owner, chown, hr, h]
    · simp [set_group, chown, hr, h]
    · simp [set_owner_group, chown, hr1, hr2, h]

/-- C7 witness: on a filesystem whose stat fails with I/O error 13 and whose
`chown` fails with OS error 1, the readers surface `IoError 13` and the
mutators surface the OS-error kind wrapping error 1, each with the cause
attached as source. -/
theorem error_taxonomy_witness :
    ((owner fsErr "/tmp/baz").1 = .error (.IoError (IoError.mk 13)) ∧
      (group fsErr "/tmp/baz").1 = .error (.IoError (IoError.mk 13)) ∧
      (owner_group fsErr "/tmp/baz").1 = .error (.IoError (IoError.mk 13)) ∧
      FileOwnerError.source (.IoError (IoError.mk 13)) = some (.ofIo (IoError.mk 13))) ∧
    (set_owner dirEx fsErr "/tmp/baz" (.byId 0)).1 = .error (.NixError (NixError.mk 1)) :=
  ⟨(error_taxonomy dirEx fsErr "/tmp/baz").2.1 (IoError.mk 13) rfl,
   ((error_taxonomy dirEx fsErr "/tmp/baz").2.2 (NixError.mk 1) rfl).1 (.byId 0)
     (Owner.mk 0) rfl⟩

/-- C8: `owner_group` performs exactly one metadata read (stat count 1, while
the `owner`-then-`group` composition would perform two), and its result is
equal to what `owner` and `group` each return against the same unchanged
filesystem state, both on success and on a stat failure. -/
theorem owner_group_single_stat (fs : Fs) (path : String) :
    (owner_group fs path).2 = 1 ∧
    (owner fs path).2 = 1 ∧
    (group fs path).2 = 1 ∧
    (∀ o g, (owner_group fs path).1 = .ok (o, g) →
      (owner fs path).1 = .ok o ∧ (group fs path).1 = .ok g) ∧
    (∀ e, (owner_group fs path).1 = .error e →
      (owner fs path).1 = .error e ∧ (group fs path).1 = .error e) := by
  cases hf : fs.files path with
  | error e => simp [owner, group, owner_group, Fs.metadata, hf]
  | ok m =>
    refine ⟨?_, ?_, ?_, fun o g hog => ?_, fun e he => ?_⟩
    · simp [owner_group, Fs.metadata, hf]
    · simp [owner, Fs.metadata, hf]
    · simp [group, Fs.metadata, hf]
    · simp [owner, group, owner_group, Fs.metadata, hf] at hog ⊢
      exact hog
    · simp [owner_group, Fs.metadata, hf] at he


/-- C8 witness: on the concrete filesystem, `owner_group` uses one stat and
agrees with `owner` and `group` at "/tmp/baz". -/
theorem owner_group_single_stat_witness :
    (owner fsEx "/tmp/baz").1 = .ok (Owner.mk 1000) ∧
    (group fsEx "/tmp/baz").1 = .ok (Group.mk 1000) :=
  (owner_group_single_stat fsEx "/tmp/baz").2.2.2.1 (Owner.mk 1000) (Group.mk 1000) rfl

/-- C9: round trip through the filesystem: when the directory maps the name
"nobody" to a UID whose reverse lookup yields the name "nobody" again, the
path's metadata is readable, and `set_owner(path, "nobody")` succeeds, then
`owner(path)` on the resulting filesystem state succeeds and its `name()` is
`Some("nobody")` (directory and metadata unchanged in between). -/
theorem set_owner_roundtrip (d : Directory) (fs : Fs) (path : String) (u v : User)
    (h1 : d.userFromName "nobody" = .ok (some u))
    (h2 : d.userFromUid u.uid = .ok (some v))
    (h3 : v.name = "nobody")
    (h4 : ∃ m, fs.files path = .ok m)
    (h5 : (set_owner d fs path (.byName "nobody")).1 = .ok ()) :
    ∃ o, (owner (set_owner d fs path (.byName "nobody")).2.1 path).1 = .ok o ∧
      Owner.name d o = .ok (some "nobody") := by
  have hres : OwnerInput.tryIntoOwner d (.byName "nobody") = .ok (Owner.mk u.uid) := by
    simp [OwnerInput.tryIntoOwner, Owner.from_name, h1]
  obtain ⟨m, hm⟩ := h4
  cases hc : fs.chownFail path with
  | some e =>
    exfalso
    simp [set_owner, chown, hres, hc] at h5
  | none =>
    refine ⟨Owner.mk u.uid, ?_, ?_⟩
    · simp [set_owner, chown, hres, hc, owner, Fs.metadata, Fs.setMeta, hm,
        Except.map, Owner.from_uid, Owner.id]
    · simp [Owner.name, h2, h3]

/-- C9 witness: the round trip at the concrete directory and filesystem. -/
theorem set_owner_roundtrip_witness :
    ∃ o, (owner (set_owner dirEx fsEx "/tmp/baz" (.byName "nobody")).2.1 "/tmp/baz").1 =
        .ok o ∧
      Owner.name dirEx o = .ok (some "nobody") :=
  set_owner_roundtrip dirEx fsEx "/tmp/baz" (User.mk 65534 "nobody")
    (User.mk 65534 "nobody") rfl rfl rfl ⟨Meta.mk 1000 1000, rfl⟩ rfl

end FileOwner
